import Mathlib

/-!
Verification of the event-distribution and connection-resilience core of the
nefit-homekit bridge: the typed event bus with state-update deduplication
(events/bus.go, events/events.go) and the Nefit connection manager
(nefit/client.go).

Modelling conventions (shallow embedding):
* Go `float64` fields are modelled as rationals (`ℚ`); the arithmetic in the
  embedded code (subtraction, comparison against the 0.01 epsilon) is exact
  at every input exercised here.
* `time.Time` values are modelled as a `Nat` tick; the Go code never sets the
  `Timestamp` fields it publishes, so they stay at the zero value.
* `time.Duration` values are `Nat` nanoseconds.
* Goroutine loops are modelled as functions of the finite trace of inputs the
  loop consumes (connect outcomes, received command events, signals).
-/

namespace NefitHomekit

/-- Embedding of `events.StateUpdateEvent` (events/events.go): a full snapshot
of thermostat state. `Source` is the provenance component name. -/
structure StateUpdateEvent where
  Timestamp : Nat
  Source : String
  CurrentTemperature : ℚ
  TargetTemperature : ℚ
  HeatingActive : Bool
  Mode : String
  Pressure : ℚ
  HotWaterActive : Bool
  HotWaterTemperature : ℚ
deriving Repr, DecidableEq

/-- The `epsilon` constant inside `StateUpdateEvent.Equals` (events/events.go). -/
def epsilon : ℚ := 1 / 100

/-- Embedding of the local `abs` helper in events/events.go. -/
def fabs (x : ℚ) : ℚ := if x < 0 then -x else x

/-- Embedding of `StateUpdateEvent.Equals` (events/events.go): the
deduplication relation. Compares the three categorical fields by value and
the four numeric fields up to `epsilon`; `Timestamp` and `Source` are not
read. -/
def StateUpdateEvent.Equals (e other : StateUpdateEvent) : Bool :=
  decide (fabs (e.CurrentTemperature - other.CurrentTemperature) < epsilon) &&
  decide (fabs (e.TargetTemperature - other.TargetTemperature) < epsilon) &&
  (e.HeatingActive == other.HeatingActive) &&
  (e.Mode == other.Mode) &&
  decide (fabs (e.Pressure - other.Pressure) < epsilon) &&
  (e.HotWaterActive == other.HotWaterActive) &&
  decide (fabs (e.HotWaterTemperature - other.HotWaterTemperature) < epsilon)

/-- The four client names created by `createClients` (events/bus.go). -/
def allClientNames : List String := ["nefit", "homekit", "web", "metrics"]

/-- Embedding of `events.Bus` (events/bus.go). `clients` holds the names
present in the `clients` map; `lastState` is the deduplication reference
guarded by `stateMu`; `subscriberQueues` holds the receive queue of each
attached `StateUpdateEvent` subscriber (the underlying eventbus delivers a
published event to every subscriber's own queue, in order). -/
structure Bus where
  clients : List String
  lastState : Option StateUpdateEvent
  subscriberQueues : List (List StateUpdateEvent)
deriving Repr, DecidableEq

/-- Embedding of `events.New` plus `createClients` (events/bus.go), with
`subscriberCount` state-update subscriptions attached. -/
def Bus.new (subscriberCount : Nat) : Bus :=
  { clients := allClientNames
    lastState := none
    subscriberQueues := List.replicate subscriberCount [] }

/-- The error value returned by `Bus.Client` for an absent name
(events/bus.go): a generic not-found error. No other error kind — in
particular no closed-bus error — exists in the package. -/
inductive BusClientError
  | notFound (name : String)
deriving Repr, DecidableEq

/-- Embedding of `Bus.Client` (events/bus.go): looks the name up in the
clients map and returns the handle, or a not-found error value. -/
def Bus.Client (b : Bus) (name : String) : Except BusClientError String :=
  if name ∈ b.clients then Except.ok name else Except.error (BusClientError.notFound name)

/-- Embedding of `Bus.PublishStateUpdate` (events/bus.go): runs entirely under
`stateMu`, hence a single atomic step here. If `lastState` is set and the
incoming event `Equals` it, the call returns without publishing; otherwise the
event is delivered to every subscriber queue and becomes the new `lastState`.
No closed-state check is performed. -/
def Bus.PublishStateUpdate (b : Bus) (event : StateUpdateEvent) : Bus :=
  match b.lastState with
  | some last =>
    if event.Equals last then b
    else
      { b with
        lastState := some event
        subscriberQueues := b.subscriberQueues.map (fun q => q ++ [event]) }
  | none =>
    { b with
      lastState := some event
      subscriberQueues := b.subscriberQueues.map (fun q => q ++ [event]) }

/-- Embedding of `Bus.Close` (events/bus.go): cancels the context, closes
every client and deletes it from the map. -/
def Bus.Close (b : Bus) : Bus := { b with clients := [] }

/-- Helper: the local `abs` of events/events.go agrees with `|·|` on `ℚ`. -/
theorem fabs_eq_abs (x : ℚ) : fabs x = |x| := by
  by_cases h : x < 0
  · simp [fabs, h, abs_of_neg h]
  · simp [fabs, h, abs_of_nonneg (le_of_not_lt h)]

/-- Helper: characterisation of the deduplication relation. -/
theorem Equals_eq_true_iff (e other : StateUpdateEvent) :
    e.Equals other = true ↔
      (e.HeatingActive = other.HeatingActive ∧ e.Mode = other.Mode ∧
       e.HotWaterActive = other.HotWaterActive ∧
       |e.CurrentTemperature - other.CurrentTemperature| < 1 / 100 ∧
       |e.TargetTemperature - other.TargetTemperature| < 1 / 100 ∧
       |e.Pressure - other.Pressure| < 1 / 100 ∧
       |e.HotWaterTemperature - other.HotWaterTemperature| < 1 / 100) := by
  simp only [StateUpdateEvent.Equals, Bool.and_eq_true, decide_eq_true_eq,
    beq_iff_eq, fabs_eq_abs, epsilon]
  tauto

/-! Connection manager (nefit/client.go). -/

/-- Embedding of the `events.ConnectionStatus` string constants (events/events.go). -/
def ConnectionStatusDisconnected : String := "disconnected"

/-- Embedding of `events.ConnectionStatusConnecting`. -/
def ConnectionStatusConnecting : String := "connecting"

/-- Embedding of `events.ConnectionStatusConnected`. -/
def ConnectionStatusConnected : String := "connected"

/-- Embedding of `events.ConnectionStatusReconnecting`. -/
def ConnectionStatusReconnecting : String := "reconnecting"

/-- Embedding of `events.ConnectionStatusFailed`. -/
def ConnectionStatusFailed : String := "failed"

/-- Embedding of `events.ConnectionStatusEvent` (events/events.go). -/
structure ConnectionStatusEvent where
  Timestamp : Nat
  Component : String
  Status : String
  Error : String
  Reconnects : Nat
deriving Repr, DecidableEq

/-- Embedding of `Client.publishConnectionStatus` (nefit/client.go): the event
it hands to the bus, with `Component` fixed to "nefit" and the current value
of `c.reconnectNum`. The Go code never sets `Timestamp`. -/
def publishConnectionStatus (reconnectNum : Nat) (status errMsg : String) :
    ConnectionStatusEvent :=
  { Timestamp := 0
    Component := "nefit"
    Status := status
    Error := errMsg
    Reconnects := reconnectNum }

/-- The XMPP timing fields of `config.Config` read by the connection manager
(durations in nanoseconds, like Go's `time.Duration`). -/
structure Config where
  XMPPKeepaliveInterval : Nat
  XMPPReconnectBackoff : Nat
  XMPPMaxReconnectWait : Nat
deriving Repr, DecidableEq

/-- The documented defaults: keepalive 30s, initial backoff 5s, max wait 5min. -/
def defaultConfig : Config :=
  { XMPPKeepaliveInterval := 30000000000
    XMPPReconnectBackoff := 5000000000
    XMPPMaxReconnectWait := 300000000000 }

/-- Result of one `nefitClient.Connect` call inside the retry loop. -/
inductive ConnectOutcome
  | ok
  | fail (err : String)
deriving Repr, DecidableEq

/-- Observable trace of `Client.connectWithRetry`: the connection-status
events it publishes, the backoff waits it sleeps (in order), the final value
of `c.reconnectNum`, and whether a connection was established. -/
structure RetryResult where
  statuses : List ConnectionStatusEvent
  waits : List Nat
  reconnectNum : Nat
  connected : Bool
deriving Repr, DecidableEq

/-- Embedding of the loop body of `Client.connectWithRetry`
(nefit/client.go lines 101-153), parameterised by the current `backoff` and
`c.reconnectNum`. Each iteration publishes Connecting, attempts to connect;
on success it publishes Connected (still carrying the pre-reset counter),
sets the counter to zero and leaves the loop; on failure it increments the
counter, publishes Reconnecting with the error, sleeps `backoff`, then
doubles `backoff` capped at `XMPPMaxReconnectWait`. An exhausted outcome
list models context cancellation ending the loop. -/
def connectLoop (cfg : Config) : List ConnectOutcome → Nat → Nat → RetryResult
  | [], _, r =>
    { statuses := [], waits := [], reconnectNum := r, connected := false }
  | ConnectOutcome.ok :: _, _, r =>
    { statuses := [publishConnectionStatus r ConnectionStatusConnecting "",
                   publishConnectionStatus r ConnectionStatusConnected ""]
      waits := []
      reconnectNum := 0
      connected := true }
  | ConnectOutcome.fail err :: rest, backoff, r =>
    let tail := connectLoop cfg rest (min (backoff * 2) cfg.XMPPMaxReconnectWait) (r + 1)
    { statuses := publishConnectionStatus r ConnectionStatusConnecting "" ::
                  publishConnectionStatus (r + 1) ConnectionStatusReconnecting err ::
                  tail.statuses
      waits := backoff :: tail.waits
      reconnectNum := tail.reconnectNum
      connected := tail.connected }

/-- Embedding of `Client.connectWithRetry` (nefit/client.go): the loop starts
with `backoff = cfg.XMPPReconnectBackoff` and `c.reconnectNum = 0` (its value
after `New`). -/
def connectWithRetry (cfg : Config) (outcomes : List ConnectOutcome) : RetryResult :=
  connectLoop cfg outcomes cfg.XMPPReconnectBackoff 0

/-- Signals that can arrive while the connected goroutine waits. -/
inductive Signal
  | ctxDone
  | linkClosed
deriving Repr, DecidableEq

/-- Embedding of the wait after a successful connect (nefit/client.go line
129): the goroutine blocks on a bare receive from `ctx.Done()`. Only a
`ctxDone` signal unblocks it; a closure report from the underlying link has
no receiving case anywhere, so `linkClosed` signals pass with no effect.
Returns whether the goroutine has returned (shutdown observed). -/
def awaitShutdown : List Signal → Bool
  | [] => false
  | Signal.ctxDone :: _ => true
  | Signal.linkClosed :: rest => awaitShutdown rest

/-- Observable behaviour of the whole `connectWithRetry` goroutine: the retry
trace plus whether the goroutine has returned from the post-connect wait. -/
structure RunResult where
  retry : RetryResult
  exitedLoop : Bool
deriving Repr, DecidableEq

/-- Embedding of the `connectWithRetry` goroutine including the post-connect
block (nefit/client.go lines 119-131): after a success the loop publishes
nothing further and performs no further connect attempts; it merely blocks
until context cancellation. -/
def connectWithRetryRun (cfg : Config) (outcomes : List ConnectOutcome)
    (post : List Signal) : RunResult :=
  let res := connectWithRetry cfg outcomes
  { retry := res, exitedLoop := res.connected && awaitShutdown post }

/-! Command handling (nefit/client.go lines 252-352). -/

/-- Embedding of the `events.CommandType` string constants (events/events.go). -/
def CommandTypeSetTemperature : String := "set_temperature"

/-- Embedding of `events.CommandTypeSetMode`. -/
def CommandTypeSetMode : String := "set_mode"

/-- Embedding of `events.CommandTypeSetHotWater`. -/
def CommandTypeSetHotWater : String := "set_hot_water"

/-- Embedding of `events.CommandEvent` (events/events.go): optional payloads
are `Option`s, mirroring the Go pointer fields. -/
structure CommandEvent where
  Timestamp : Nat
  Source : String
  CommandType : String
  TargetTemperature : Option ℚ
  Mode : Option String
  HotWaterEnabled : Option Bool
deriving Repr, DecidableEq

/-- Opaque URI constants from the external nefit-go/types package (not part
of this repository); only their identity matters here. -/
def URIStatus : String := "uri:status"

/-- Opaque token for `types.URIManualSetpoint`. -/
def URIManualSetpoint : String := "uri:manualSetpoint"

/-- Opaque token for `types.URIUserMode`. -/
def URIUserMode : String := "uri:userMode"

/-- Opaque token for `types.URIHotWaterManualMode`. -/
def URIHotWaterManualMode : String := "uri:hotWaterManualMode"

/-- Value written by a `nefitClient.Put` call. -/
inductive PutValue
  | num (x : ℚ)
  | str (s : String)
deriving Repr, DecidableEq

/-- Actions the connection manager performs on the device link. `fetchStatus`
is a call to `Client.fetchAndPublishStatus` (nefit/client.go lines 177-192),
the out-of-band status poll. -/
inductive DeviceAction
  | put (uri : String) (value : PutValue)
  | fetchStatus
deriving Repr, DecidableEq

/-- Embedding of `Client.handleCommand` (nefit/client.go lines 276-352).
`putOk` is the outcome of the `nefitClient.Put` call. Returns the reconnect
counter — unchanged, since `handleCommand` never assigns `c.reconnectNum` —
and the list of device-link actions performed, in order. A missing payload
or an unknown command type logs and returns with no action. After a
successful Put, set-temperature and set-mode call `fetchAndPublishStatus`;
the set-hot-water branch returns directly after its Put. -/
def handleCommand (reconnectNum : Nat) (cmd : CommandEvent) (putOk : Bool) :
    Nat × List DeviceAction :=
  if cmd.CommandType == CommandTypeSetTemperature then
    match cmd.TargetTemperature with
    | none => (reconnectNum, [])
    | some t =>
      if putOk then
        (reconnectNum, [DeviceAction.put URIManualSetpoint (PutValue.num t),
                        DeviceAction.fetchStatus])
      else (reconnectNum, [DeviceAction.put URIManualSetpoint (PutValue.num t)])
  else if cmd.CommandType == CommandTypeSetMode then
    match cmd.Mode with
    | none => (reconnectNum, [])
    | some m =>
      let nefitMode := if m == "off" then "off" else "manual"
      if putOk then
        (reconnectNum, [DeviceAction.put URIUserMode (PutValue.str nefitMode),
                        DeviceAction.fetchStatus])
      else (reconnectNum, [DeviceAction.put URIUserMode (PutValue.str nefitMode)])
  else if cmd.CommandType == CommandTypeSetHotWater then
    match cmd.HotWaterEnabled with
    | none => (reconnectNum, [])
    | some en =>
      let mode := if en then "on" else "off"
      (reconnectNum, [DeviceAction.put URIHotWaterManualMode (PutValue.str mode)])
  else (reconnectNum, [])

/-- Embedding of the consumption loop of `Client.handleCommands`
(nefit/client.go lines 252-273): events whose `Source` is "nefit" are skipped
with `continue`; every other event is passed to `handleCommand`. Returns the
list of events handed to `handleCommand`, in order. -/
def handleCommands : List CommandEvent → List CommandEvent
  | [] => []
  | e :: rest =>
    if e.Source == "nefit" then handleCommands rest
    else e :: handleCommands rest

/-! Status translation and push notifications (nefit/client.go lines 177-250). -/

/-- The fields of the external `types.Status` struct (nefit-go) that this
repository reads. -/
structure Status where
  InHouseTemp : ℚ
  TempSetpoint : ℚ
  BoilerIndicator : String
  UserMode : String
  HotWaterActive : Bool
deriving Repr, DecidableEq

/-- The zero value of `types.Status`, as produced by `var s types.Status`. -/
def zeroStatus : Status :=
  { InHouseTemp := 0
    TempSetpoint := 0
    BoilerIndicator := ""
    UserMode := ""
    HotWaterActive := false }

/-- Embedding of `Client.publishStateUpdate` (nefit/client.go lines 224-250):
the `StateUpdateEvent` it hands unconditionally to `bus.PublishStateUpdate`.
Heating is active iff the boiler indicator is "CH" or "HW"; mode is "off"
when the device user mode is "off" and "heat" otherwise. Fields the Go code
leaves unset (`Timestamp`, `Pressure`, `HotWaterTemperature`) carry their
zero values. -/
def publishStateUpdate (status : Status) : StateUpdateEvent :=
  let heatingActive := status.BoilerIndicator == "CH" || status.BoilerIndicator == "HW"
  let mode := if status.UserMode == "off" then "off" else "heat"
  { Timestamp := 0
    Source := "nefit"
    CurrentTemperature := status.InHouseTemp
    TargetTemperature := status.TempSetpoint
    HeatingActive := heatingActive
    Mode := mode
    Pressure := 0
    HotWaterActive := status.HotWaterActive
    HotWaterTemperature := 0 }

/-- Untyped notification payload (`interface` values in the Go map). -/
inductive JValue
  | num (x : ℚ)
  | str (s : String)
  | jbool (b : Bool)
  | obj (fields : List (String × JValue))

/-- Type assertion `.(float64)` on a map entry: some only if the key is
present with a numeric value. -/
def lookupNum (fields : List (String × JValue)) (k : String) : Option ℚ :=
  match fields.lookup k with
  | some (JValue.num x) => some x
  | _ => none

/-- Type assertion `.(string)` on a map entry. -/
def lookupStr (fields : List (String × JValue)) (k : String) : Option String :=
  match fields.lookup k with
  | some (JValue.str s) => some s
  | _ => none

/-- Embedding of `Client.handleNefitEvent` (nefit/client.go lines 194-221):
for a status-URI notification whose payload is a map, a `types.Status` is
built starting from the zero value, overwriting only the fields present with
the right type, and the result is passed to `publishStateUpdate`. Returns
the event handed to the bus, or `none` when nothing is published. -/
def handleNefitEvent (uri : String) (data : JValue) : Option StateUpdateEvent :=
  if uri == URIStatus then
    match data with
    | JValue.obj fields =>
      let s0 := zeroStatus
      let s1 := match lookupNum fields "in_house_temp" with
        | some t => { s0 with InHouseTemp := t }
        | none => s0
      let s2 := match lookupNum fields "temp_setpoint" with
        | some t => { s1 with TempSetpoint := t }
        | none => s1
      let s3 := match lookupStr fields "boiler_indicator" with
        | some b => { s2 with BoilerIndicator := b }
        | none => s2
      let s4 := match lookupStr fields "user_mode" with
        | some u => { s3 with UserMode := u }
        | none => s3
      some (publishStateUpdate s4)
    | _ => none
  else none

/-! Concrete fixtures used by witnesses and counterexamples. -/

/-- Concrete snapshot matching the repository's own test fixture
(21.5 / 22.0, heating, mode heat, pressure 1.5, hot water at 55). -/
def snapshotA : StateUpdateEvent :=
  { Timestamp := 0
    Source := "nefit"
    CurrentTemperature := 21.5
    TargetTemperature := 22
    HeatingActive := true
    Mode := "heat"
    Pressure := 1.5
    HotWaterActive := true
    HotWaterTemperature := 55 }

/-- Near-duplicate of `snapshotA`: different timestamp and provenance, numeric
fields shifted by 0.005, within epsilon. -/
def snapshotADup : StateUpdateEvent :=
  { snapshotA with
    Timestamp := 1
    Source := "web"
    CurrentTemperature := 21.505
    TargetTemperature := 22.005 }

/-- Bus whose last published state is `snapshotA`, with one subscriber that
has already received it. -/
def busWithA : Bus :=
  { clients := allClientNames
    lastState := some snapshotA
    subscriberQueues := [[snapshotA]] }

/-- Command event with the connection manager's own source name. -/
def nefitEchoCmd : CommandEvent :=
  { Timestamp := 0
    Source := "nefit"
    CommandType := CommandTypeSetTemperature
    TargetTemperature := some 22.5
    Mode := none
    HotWaterEnabled := none }

/-- Set-temperature command from the HomeKit adapter. -/
def homekitTempCmd : CommandEvent :=
  { Timestamp := 0
    Source := "homekit"
    CommandType := CommandTypeSetTemperature
    TargetTemperature := some 22.5
    Mode := none
    HotWaterEnabled := none }

/-! Claim theorems. -/

/-- C1: the deduplication relation on state snapshots holds exactly when each
of the three categorical fields (HeatingActive, Mode, HotWaterActive) is
equal by value and each of the four numeric fields (CurrentTemperature,
TargetTemperature, Pressure, HotWaterTemperature) differs in absolute value
by strictly less than 0.01; Source and Timestamp do not occur in the
characterisation, and the second conjunct shows that any snapshot differing
from `e` only in provenance and timestamp is related to it. -/
theorem dedup_equals_characterisation (e other : StateUpdateEvent) :
    (e.Equals other = true ↔
      (e.HeatingActive = other.HeatingActive ∧ e.Mode = other.Mode ∧
       e.HotWaterActive = other.HotWaterActive ∧
       |e.CurrentTemperature - other.CurrentTemperature| < 1 / 100 ∧
       |e.TargetTemperature - other.TargetTemperature| < 1 / 100 ∧
       |e.Pressure - other.Pressure| < 1 / 100 ∧
       |e.HotWaterTemperature - other.HotWaterTemperature| < 1 / 100)) ∧
    (∀ t s, ({ e with Timestamp := t, Source := s } : StateUpdateEvent).Equals e = true) := by
  refine ⟨Equals_eq_true_iff e other, fun t s => ?_⟩
  rw [Equals_eq_true_iff]
  norm_num

/-- C10: a published snapshot reports heating active exactly when the device
boiler indicator is "CH" (central heating) or "HW" (hot water); in
particular hot-water production alone is reported as heating active. -/
theorem heatingActive_iff_boiler_ch_or_hw (s : Status) :
    (publishStateUpdate s).HeatingActive = true ↔
      (s.BoilerIndicator = "CH" ∨ s.BoilerIndicator = "HW") := by
  simp [publishStateUpdate]

/-- Helper: every event the command loop hands to `handleCommand` has a
source other than "nefit". -/
theorem mem_handleCommands_source_ne (evts : List CommandEvent) :
    ∀ e ∈ handleCommands evts, e.Source ≠ "nefit" := by
  induction evts with
  | nil => intro e he; simp [handleCommands] at he
  | cons a rest ih =>
    intro e he
    by_cases ha : a.Source = "nefit"
    · rw [handleCommands, if_pos (by simp [ha])] at he
      exact ih e he
    · rw [handleCommands, if_neg (by simp [ha])] at he
      rcases List.mem_cons.mp he with rfl | hm
      · exact ha
      · exact ih e hm

/-- C4: a command event whose source equals the connection manager's own
component name "nefit" is never passed to `handleCommand` by the
command-consumption loop, hence never applied to the device link. -/
theorem nefit_commands_never_applied (evts : List CommandEvent) (e : CommandEvent)
    (h : e.Source = "nefit") : e ∉ handleCommands evts :=
  fun hm => mem_handleCommands_source_ne evts e hm h

/-- Witness for C4 at a concrete trace: the loop receiving a nefit-sourced
set-temperature command followed by a homekit command never hands the former
to `handleCommand`. -/
theorem nefit_commands_never_applied_witness :
    nefitEchoCmd ∉ handleCommands [nefitEchoCmd, homekitTempCmd] :=
  nefit_commands_never_applied [nefitEchoCmd, homekitTempCmd] nefitEchoCmd rfl

/-- C2: one `PublishStateUpdate` step against a bus whose last published
reference is `prev`. If the incoming snapshot matches `prev` in all three
categorical fields and all four numeric fields are within epsilon, the call
is a no-op (the bus — reference and every subscriber queue — is unchanged).
If it differs in at least one categorical field or by at least epsilon in
some numeric field, the event is appended to every subscriber queue and
becomes the new last-published reference. The compare and the swap are one
atomic step here because the Go code runs both under the single `stateMu`
critical section. -/
theorem publishState_dedup_step (b : Bus) (prev event : StateUpdateEvent)
    (h : b.lastState = some prev) :
    ((event.HeatingActive = prev.HeatingActive ∧ event.Mode = prev.Mode ∧
      event.HotWaterActive = prev.HotWaterActive ∧
      |event.CurrentTemperature - prev.CurrentTemperature| < 1 / 100 ∧
      |event.TargetTemperature - prev.TargetTemperature| < 1 / 100 ∧
      |event.Pressure - prev.Pressure| < 1 / 100 ∧
      |event.HotWaterTemperature - prev.HotWaterTemperature| < 1 / 100) →
      b.PublishStateUpdate event = b) ∧
    ((event.HeatingActive ≠ prev.HeatingActive ∨ event.Mode ≠ prev.Mode ∨
      event.HotWaterActive ≠ prev.HotWaterActive ∨
      1 / 100 ≤ |event.CurrentTemperature - prev.CurrentTemperature| ∨
      1 / 100 ≤ |event.TargetTemperature - prev.TargetTemperature| ∨
      1 / 100 ≤ |event.Pressure - prev.Pressure| ∨
      1 / 100 ≤ |event.HotWaterTemperature - prev.HotWaterTemperature|) →
      (b.PublishStateUpdate event).lastState = some event ∧
      (b.PublishStateUpdate event).subscriberQueues =
        b.subscriberQueues.map (fun q => q ++ [event])) := by
  constructor
  · intro hc
    have hEq : event.Equals prev = true := (Equals_eq_true_iff event prev).mpr hc
    simp [Bus.PublishStateUpdate, h, hEq]
  · intro hd
    have hne : event.Equals prev = false := by
      cases hb : event.Equals prev with
      | false => rfl
      | true =>
        exfalso
        obtain ⟨e1, e2, e3, e4, e5, e6, e7⟩ := (Equals_eq_true_iff event prev).mp hb
        rcases hd with h1 | h1 | h1 | h1 | h1 | h1 | h1
        · exact h1 e1
        · exact h1 e2
        · exact h1 e3
        · exact absurd e4 (not_lt.mpr h1)
        · exact absurd e5 (not_lt.mpr h1)
        · exact absurd e6 (not_lt.mpr h1)
        · exact absurd e7 (not_lt.mpr h1)
    simp [Bus.PublishStateUpdate, h, hne]

/-- Witness for C2: the near-duplicate of the repository's test fixture
(0.005 shifts, different source and timestamp) is suppressed: the publish
call leaves the bus untouched. -/
theorem publishState_dedup_step_witness :
    busWithA.PublishStateUpdate snapshotADup = busWithA :=
  (publishState_dedup_step busWithA snapshotA snapshotADup rfl).1
    (by norm_num [snapshotA, snapshotADup, abs_lt])

/-- Helper: one capped doubling step composed with iterated capped doubling. -/
theorem min_two_mul_min_pow (b M j : Nat) :
    min (min (b * 2) M * 2 ^ j) M = min (b * 2 ^ (j + 1)) M := by
  rcases Nat.le_total (b * 2) M with h | h
  · rw [min_eq_left h]
    have : b * 2 * 2 ^ j = b * 2 ^ (j + 1) := by
      rw [pow_succ]; ring
    rw [this]
  · rw [min_eq_right h]
    have h2j : (1 : Nat) ≤ 2 ^ j := Nat.one_le_two_pow
    have h1 : M ≤ M * 2 ^ j := by
      calc M = M * 1 := (Nat.mul_one M).symm
      _ ≤ M * 2 ^ j := Nat.mul_le_mul (le_refl M) h2j
    have h2 : M ≤ b * 2 ^ (j + 1) := by
      calc M ≤ b * 2 := h
      _ = b * 2 * 1 := (Nat.mul_one _).symm
      _ ≤ b * 2 * 2 ^ j := Nat.mul_le_mul (le_refl _) h2j
      _ = b * 2 ^ (j + 1) := by rw [pow_succ]; ring
    rw [min_eq_right h1, min_eq_right h2]

/-- Helper: wait `i` of a retry run that fails `n` times before succeeding is
the `i`-fold capped doubling of the entry backoff `b`. -/
theorem connectLoop_waits_getD (cfg : Config) (err : String) (n : Nat) :
    ∀ b r i : Nat, b ≤ cfg.XMPPMaxReconnectWait → i < n →
      (connectLoop cfg (List.replicate n (ConnectOutcome.fail err) ++ [ConnectOutcome.ok]) b r).waits.getD i 0 =
        min (b * 2 ^ i) cfg.XMPPMaxReconnectWait := by
  induction n with
  | zero => intro b r i _ hi; exact absurd hi (Nat.not_lt_zero i)
  | succ n ih =>
    intro b r i hb hi
    rw [List.replicate_succ, List.cons_append]
    cases i with
    | zero =>
      simp [connectLoop, min_eq_left hb]
    | succ j =>
      have hj : j < n := Nat.lt_of_succ_lt_succ hi
      have step := ih (min (b * 2) cfg.XMPPMaxReconnectWait) (r + 1) j
        (min_le_right _ _) hj
      simp only [connectLoop, List.getD_cons_succ]
      rw [step, min_two_mul_min_pow]

/-- Helper: a retry run with `n` failures then a success publishes through,
ends connected, resets the counter to zero, and sleeps exactly `n` waits. -/
theorem connectLoop_success_result (cfg : Config) (err : String) (n : Nat) :
    ∀ b r : Nat,
      (connectLoop cfg (List.replicate n (ConnectOutcome.fail err) ++ [ConnectOutcome.ok]) b r).reconnectNum = 0 ∧
      (connectLoop cfg (List.replicate n (ConnectOutcome.fail err) ++ [ConnectOutcome.ok]) b r).connected = true ∧
      (connectLoop cfg (List.replicate n (ConnectOutcome.fail err) ++ [ConnectOutcome.ok]) b r).waits.length = n := by
  induction n with
  | zero => intro b r; simp [connectLoop]
  | succ n ih =>
    intro b r
    rw [List.replicate_succ, List.cons_append]
    obtain ⟨h1, h2, h3⟩ := ih (min (b * 2) cfg.XMPPMaxReconnectWait) (r + 1)
    simp [connectLoop, h1, h2, h3]

/-- Helper: a retry run that only fails leaves the counter at `r + n`. -/
theorem connectLoop_all_fail_counter (cfg : Config) (err : String) (n : Nat) :
    ∀ b r : Nat,
      (connectLoop cfg (List.replicate n (ConnectOutcome.fail err)) b r).reconnectNum = r + n := by
  induction n with
  | zero => intro b r; simp [connectLoop]
  | succ n ih =>
    intro b r
    rw [List.replicate_succ]
    simp only [connectLoop]
    rw [ih (min (b * 2) cfg.XMPPMaxReconnectWait) (r + 1)]
    omega

/-- C3: in a retry run with initial backoff `b0 = XMPPReconnectBackoff` and
cap `bmax = XMPPMaxReconnectWait` (validated so that `b0 ≤ bmax`) that fails
`n` times and then connects, the wait before retry attempt `i+1` is
`min (b0 * 2 ^ i) bmax` and there are exactly `n` waits; the reconnect
counter is zero after the successful connection, equals `n` when no
connection succeeded, and is left unchanged by `handleCommand`, so applying
a single command never resets it. -/
theorem backoff_waits_and_counter_reset (cfg : Config) (err : String) (n : Nat)
    (hb : cfg.XMPPReconnectBackoff ≤ cfg.XMPPMaxReconnectWait) :
    (∀ i, i < n →
      (connectWithRetry cfg (List.replicate n (ConnectOutcome.fail err) ++ [ConnectOutcome.ok])).waits.getD i 0 =
        min (cfg.XMPPReconnectBackoff * 2 ^ i) cfg.XMPPMaxReconnectWait) ∧
    (connectWithRetry cfg (List.replicate n (ConnectOutcome.fail err) ++ [ConnectOutcome.ok])).waits.length = n ∧
    (connectWithRetry cfg (List.replicate n (ConnectOutcome.fail err) ++ [ConnectOutcome.ok])).reconnectNum = 0 ∧
    (connectWithRetry cfg (List.replicate n (ConnectOutcome.fail err) ++ [ConnectOutcome.ok])).connected = true ∧
    (connectWithRetry cfg (List.replicate n (ConnectOutcome.fail err))).reconnectNum = n ∧
    (∀ r cmd putOk, (handleCommand r cmd putOk).1 = r) := by
  obtain ⟨h1, h2, h3⟩ := connectLoop_success_result cfg err n cfg.XMPPReconnectBackoff 0
  refine ⟨fun i hi => connectLoop_waits_getD cfg err n cfg.XMPPReconnectBackoff 0 i hb hi,
    h3, h1, h2, ?_, ?_⟩
  · have := connectLoop_all_fail_counter cfg err n cfg.XMPPReconnectBackoff 0
    simpa [connectWithRetry] using this
  · intro r cmd putOk
    unfold handleCommand
    repeat' split
    all_goals rfl

/-- Witness for C3 at the spec's concrete scenario (defaults b0 = 5s,
bmax = 5min, three failures): the third wait is min(5s * 4, 5min) = 20s. -/
theorem backoff_waits_and_counter_reset_witness :
    (connectWithRetry defaultConfig
        (List.replicate 3 (ConnectOutcome.fail "dial error") ++ [ConnectOutcome.ok])).waits.getD 2 0 =
      min (defaultConfig.XMPPReconnectBackoff * 2 ^ 2) defaultConfig.XMPPMaxReconnectWait :=
  (backoff_waits_and_counter_reset defaultConfig "dial error" 3 (by decide)).1 2 (by decide)

/-- C5 (code divergence): at the failing input — one successful connection,
then the underlying link closing while no shutdown signal arrives — the
retry goroutine publishes only Connecting and Connected: no Reconnecting
transition ever occurs and the goroutine stays blocked (it has not returned,
and performs no further connect attempt), because nefit/client.go line 129
waits solely on `ctx.Done()`; nothing receives a link-closure report, despite
the adjacent comment "Wait for connection to close or context to be
cancelled". The claimed Connected → Reconnecting transition is unreachable. -/
theorem connected_then_link_close_no_reconnect :
    (connectWithRetryRun defaultConfig [ConnectOutcome.ok] [Signal.linkClosed]).retry.statuses =
      [publishConnectionStatus 0 ConnectionStatusConnecting "",
       publishConnectionStatus 0 ConnectionStatusConnected ""] ∧
    ((connectWithRetryRun defaultConfig [ConnectOutcome.ok] [Signal.linkClosed]).retry.statuses.all
      (fun ev => !(ev.Status == ConnectionStatusReconnecting))) = true ∧
    (connectWithRetryRun defaultConfig [ConnectOutcome.ok] [Signal.linkClosed]).retry.connected = true ∧
    (connectWithRetryRun defaultConfig [ConnectOutcome.ok] [Signal.linkClosed]).exitedLoop = false := by
  decide

/-- Set-hot-water command from the web adapter, with its payload present. -/
def webHotWaterCmd : CommandEvent :=
  { Timestamp := 0
    Source := "web"
    CommandType := CommandTypeSetHotWater
    TargetTemperature := none
    Mode := none
    HotWaterEnabled := some true }

/-- C6 counterexample: a set-hot-water command whose Put succeeds performs
only the Put — no `fetchAndPublishStatus` follows, because the hot-water
branch of `handleCommand` (nefit/client.go lines 327-345) returns right
after the Put. This refutes the claim for the set-hot-water command kind. -/
theorem hot_water_no_immediate_poll :
    DeviceAction.fetchStatus ∉ (handleCommand 0 webHotWaterCmd true).2 ∧
    (handleCommand 0 webHotWaterCmd true).2 =
      [DeviceAction.put URIHotWaterManualMode (PutValue.str "on")] := by
  decide

/-- C6 (amended): after a successfully applied set-temperature or set-mode
command the connection manager triggers an immediate out-of-band status poll
(`fetchAndPublishStatus`) right after the Put; a set-hot-water command never
triggers one, whatever the Put outcome. -/
theorem immediate_poll_after_command (r : Nat) (cmd : CommandEvent) (putOk : Bool) :
    (∀ t, cmd.CommandType = CommandTypeSetTemperature → cmd.TargetTemperature = some t →
      (handleCommand r cmd true).2 =
        [DeviceAction.put URIManualSetpoint (PutValue.num t), DeviceAction.fetchStatus]) ∧
    (∀ m, cmd.CommandType = CommandTypeSetMode → cmd.Mode = some m →
      (handleCommand r cmd true).2 =
        [DeviceAction.put URIUserMode (PutValue.str (if m == "off" then "off" else "manual")),
         DeviceAction.fetchStatus]) ∧
    (∀ en, cmd.CommandType = CommandTypeSetHotWater → cmd.HotWaterEnabled = some en →
      DeviceAction.fetchStatus ∉ (handleCommand r cmd putOk).2) := by
  refine ⟨fun t hk hp => ?_, fun m hk hp => ?_, fun en hk hp => ?_⟩
  · simp [handleCommand, hk, hp, CommandTypeSetTemperature]
  · simp [handleCommand, hk, hp, CommandTypeSetTemperature, CommandTypeSetMode]
  · simp [handleCommand, hk, hp, CommandTypeSetTemperature, CommandTypeSetMode,
      CommandTypeSetHotWater]

/-- Witness for C6 (amended): a concrete homekit set-temperature command with
a successful Put is followed by the immediate status poll. -/
theorem immediate_poll_after_command_witness :
    (handleCommand 0 homekitTempCmd true).2 =
      [DeviceAction.put URIManualSetpoint (PutValue.num 22.5), DeviceAction.fetchStatus] :=
  (immediate_poll_after_command 0 homekitTempCmd true).1 22.5 rfl rfl

/-- Fields of a status push that carries only the current temperature. -/
def pushFieldsOnlyTemp : List (String × JValue) := [("in_house_temp", JValue.num 21.5)]

/-- C7 counterexample: immediately after `snapshotA` (TargetTemperature 22)
was the published state, a push notification carrying only in_house_temp is
published with TargetTemperature 0, Mode "heat" and heating off — every
field absent from the notification is reset to its zero value instead of
retaining the last known value, because `handleNefitEvent`
(nefit/client.go line 204) starts from `var s types.Status`. -/
theorem push_partial_zeroes_absent_fields :
    handleNefitEvent URIStatus (JValue.obj pushFieldsOnlyTemp) =
      some { Timestamp := 0, Source := "nefit", CurrentTemperature := 21.5,
             TargetTemperature := 0, HeatingActive := false, Mode := "heat",
             Pressure := 0, HotWaterActive := false, HotWaterTemperature := 0 } ∧
    snapshotA.TargetTemperature = 22 := by
  constructor
  · rfl
  · rfl

/-- C7 (amended): push-notification handling replaces rather than merges:
for every status push whose map lacks a numeric temp_setpoint and a string
boiler_indicator, the published snapshot carries the zero values
TargetTemperature = 0 and HeatingActive = false, independent of any
previously known state. -/
theorem push_absent_fields_zero (fields : List (String × JValue))
    (hts : lookupNum fields "temp_setpoint" = none)
    (hbi : lookupStr fields "boiler_indicator" = none) :
    (handleNefitEvent URIStatus (JValue.obj fields)).map
        (fun e => (e.TargetTemperature, e.HeatingActive)) = some (0, false) := by
  cases hin : lookupNum fields "in_house_temp" <;>
  cases hum : lookupStr fields "user_mode" <;>
  simp [handleNefitEvent, hin, hts, hbi, hum, publishStateUpdate, zeroStatus]

/-- Witness for C7 (amended) at the concrete temperature-only push. -/
theorem push_absent_fields_zero_witness :
    (handleNefitEvent URIStatus (JValue.obj pushFieldsOnlyTemp)).map
        (fun e => (e.TargetTemperature, e.HeatingActive)) = some (0, false) :=
  push_absent_fields_zero pushFieldsOnlyTemp rfl rfl

/-- Device status carrying the unrecognised user mode "clock". -/
def unknownModeStatus : Status :=
  { InHouseTemp := 21
    TempSetpoint := 22
    BoilerIndicator := "No"
    UserMode := "clock"
    HotWaterActive := false }

/-- C8 counterexample: a device status with the unrecognised mode string
"clock" is not dropped: `publishStateUpdate` unconditionally builds an event
with the unknown mode coerced to "heat" and hands it to the bus, which
delivers it to the subscriber (nefit/client.go lines 228-249). -/
theorem unknown_mode_forwarded :
    (publishStateUpdate unknownModeStatus).Mode = "heat" ∧
    ((Bus.new 1).PublishStateUpdate (publishStateUpdate unknownModeStatus)).subscriberQueues =
      [[publishStateUpdate unknownModeStatus]] := by
  decide

/-- C8 (amended): a command with an unknown command-kind string is logged and
dropped with no device-link action (nefit/client.go lines 347-351); an
unknown or unparseable device mode string, however, is not dropped — the
state update is forwarded with the mode coerced to the default "heat". -/
theorem unknown_kind_dropped_unknown_mode_coerced (r : Nat) (cmd : CommandEvent)
    (putOk : Bool) (s : Status)
    (hk1 : cmd.CommandType ≠ CommandTypeSetTemperature)
    (hk2 : cmd.CommandType ≠ CommandTypeSetMode)
    (hk3 : cmd.CommandType ≠ CommandTypeSetHotWater)
    (hm : s.UserMode ≠ "off") :
    handleCommand r cmd putOk = (r, []) ∧ (publishStateUpdate s).Mode = "heat" := by
  have h1 : (cmd.CommandType == CommandTypeSetTemperature) = false :=
    beq_eq_false_iff_ne.mpr hk1
  have h2 : (cmd.CommandType == CommandTypeSetMode) = false :=
    beq_eq_false_iff_ne.mpr hk2
  have h3 : (cmd.CommandType == CommandTypeSetHotWater) = false :=
    beq_eq_false_iff_ne.mpr hk3
  have h4 : (s.UserMode == "off") = false := beq_eq_false_iff_ne.mpr hm
  constructor
  · simp [handleCommand, h1, h2, h3]
  · simp [publishStateUpdate, h4]

/-- Command event with a command-kind string this manager does not know. -/
def badKindCmd : CommandEvent :=
  { Timestamp := 0
    Source := "homekit"
    CommandType := "set_fan_speed"
    TargetTemperature := none
    Mode := none
    HotWaterEnabled := none }

/-- Witness for C8 (amended) with the concrete unknown kind "set_fan_speed"
and the concrete unknown mode "clock". -/
theorem unknown_kind_dropped_witness :
    handleCommand 0 badKindCmd true = (0, []) ∧
    (publishStateUpdate unknownModeStatus).Mode = "heat" :=
  unknown_kind_dropped_unknown_mode_coerced 0 badKindCmd true unknownModeStatus
    (by decide) (by decide) (by decide) (by decide)

/-- C9 counterexample: after `Close` has completed, a publish call does not
fail with any error — there is no ClosedError in the events package and
`PublishStateUpdate` performs no closed-state check: the snapshot still
becomes the dedup reference and is delivered to the subscriber queue
(events/bus.go lines 430-456 and 483-499). -/
theorem publish_after_close_not_rejected :
    (((Bus.new 1).Close).PublishStateUpdate snapshotA).lastState = some snapshotA ∧
    (((Bus.new 1).Close).PublishStateUpdate snapshotA).subscriberQueues = [[snapshotA]] := by
  constructor
  · rfl
  · rfl

/-- C9 (amended): after `Close`, every client lookup fails with the generic
not-found error value — reported to the caller, never a crash — because
`Close` deletes every client from the map; publish calls after close are not
rejected by the wrapper, which has no closed-state check and no ClosedError
type. -/
theorem after_close_client_lookup_fails (k : Nat) (name : String) :
    ((Bus.new k).Close).Client name = Except.error (BusClientError.notFound name) ∧
    ∀ e, (((Bus.new k).Close).PublishStateUpdate e).lastState = some e := by
  constructor
  · simp [Bus.new, Bus.Close, Bus.Client]
  · intro e
    simp [Bus.new, Bus.Close, Bus.PublishStateUpdate]

end NefitHomekit
